import Mathlib

/-! Shallow embedding of the intent-tracking and recommendation-reasoning core of the
shopping-assistant repository.  The reasoning engine (parseUserIntent, decideNextQuestion,
fetchCatalogSubset, normalizeProduct, scoreProduct, recommend, compare, reason) is embedded
from the agent reasoning module; the retail conversation agent (calculateConfidence,
countClarifyingQuestions, processRetailConversation) from the retail agent module.
External collaborators (the LLM intent extractor, the vector stores, the system clock) are
passed in as explicit arguments, and the configuration table purpose_attribute_map.json,
which the source loads from disk at module initialization, is an explicit map parameter
(the spec requires this configuration to be injectable).  JavaScript strings are Lean
strings, JavaScript numbers are modelled as Int for prices and Rat for scores, weights and
confidences (every comparison the code performs is exact at the values the repository
produces), and JavaScript truthiness tests are modelled explicitly.  The module-level
product cache is elided: the spec requires cache hits to be behaviorally indistinguishable
from misses. -/

/-- Lowercase every character (models String.prototype.toLowerCase on the ASCII text the
agent handles). -/
def lowerStr (s : String) : String := String.mk (s.data.map Char.toLower)

/-- Character-list test: the first list starts the second. -/
def chPre : List Char → List Char → Bool
  | [], _ => true
  | _ :: _, [] => false
  | a :: as, b :: bs => a == b && chPre as bs

/-- Case-insensitive variant of chPre, for the case-insensitive regexes. -/
def chPreCI : List Char → List Char → Bool
  | [], _ => true
  | _ :: _, [] => false
  | a :: as, b :: bs => a.toLower == b.toLower && chPreCI as bs

/-- Contiguous-substring test (models String.prototype.includes). -/
def chSub (pat : List Char) : List Char → Bool
  | [] => chPre pat []
  | c :: cs => chPre pat (c :: cs) || chSub pat cs

def strIncludes (hay pat : String) : Bool := chSub pat.data hay.data

/-- Truthiness of an optional JavaScript string: undefined, null and "" are falsy. -/
def jsTruthyS : Option String → Bool
  | none => false
  | some s => s != ""

/-- Truthiness of an optional JavaScript number: undefined, null and 0 are falsy. -/
def jsTruthyN : Option Nat → Bool
  | none => false
  | some n => n != 0

def isWsChar (c : Char) : Bool :=
  c == ' ' || c == '\t' || c == '\n' || c == '\r' || c == '\x0b' || c == '\x0c'

/-- Greedy whitespace skip, for the regex fragments written as backslash-s-star. -/
def dropWsL : List Char → List Char
  | [] => []
  | c :: cs => if isWsChar c then dropWsL cs else c :: cs

/-- Greedy match of one or more decimal digits; returns the digits and the rest. -/
def numDigits (s : List Char) : Option (List Char × List Char) :=
  let p := s.span Char.isDigit
  if p.1.isEmpty then none else some (p.1, p.2)

/-- Greedy match of the regex fragment for comma groups: zero or more repetitions of a
comma followed by one or more digits.  The fuel argument (instantiated with the length of
the input) only serves termination. -/
def commaGroups : Nat → List Char → List Char × List Char
  | 0, s => ([], s)
  | fuel + 1, s =>
    match s with
    | ',' :: rest =>
      let p := rest.span Char.isDigit
      if p.1.isEmpty then ([], s)
      else
        let q := commaGroups fuel p.2
        (',' :: (p.1 ++ q.1), q.2)
    | _ => ([], s)

/-- Digits with optional comma groups: the number token shared by the budget regexes. -/
def numToken (s : List Char) : Option (List Char × List Char) :=
  match numDigits s with
  | none => none
  | some nd =>
    let q := commaGroups nd.2.length nd.2
    some (nd.1 ++ q.1, q.2)

/-- Optional fractional part: a dot followed by one or more digits. -/
def optDec (s : List Char) : List Char × List Char :=
  match s with
  | '.' :: rest =>
    let p := rest.span Char.isDigit
    if p.1.isEmpty then ([], s) else ('.' :: p.1, p.2)
  | _ => ([], s)

/-- Optional thousands suffix, the regex alternation of k and thousand (k tried first). -/
def optKTh (s : List Char) : List Char × List Char :=
  if chPre ['k'] s then (['k'], s.drop 1)
  else if chPre "thousand".data s then ("thousand".data, s.drop 8)
  else ([], s)

/-- Candidate rests after the optional currency marker, in regex backtracking order:
rs followed by a dot, rs, inr, the rupee sign, and finally the empty match. -/
def curRests (s : List Char) : List (List Char) :=
  (if chPreCI "rs.".data s then [s.drop 3] else []) ++
  (if chPreCI "rs".data s then [s.drop 2] else []) ++
  (if chPreCI "inr".data s then [s.drop 3] else []) ++
  (if chPreCI "₹".data s then [s.drop 1] else []) ++
  [s]

/-- Match, at the start of the input, one of the keywords followed by optional whitespace,
optional currency marker, optional whitespace and a number token with optional k or
thousand suffix; the returned characters are the captured group (number and suffix).
Keywords are tried in the order of the regex alternation. -/
def kwNumCapAt (kws : List String) (s : List Char) : Option (List Char) :=
  kws.findSome? fun kw =>
    if chPreCI kw.data s then
      let r1 := dropWsL (s.drop kw.length)
      (curRests r1).findSome? fun r2 =>
        let r3 := dropWsL r2
        match numToken r3 with
        | none => none
        | some nt =>
          let kt := optKTh nt.2
          some (nt.1 ++ kt.1)
    else none

/-- Leftmost match: try the matcher at every start position, left to right. -/
def scanFor {α : Type} (f : List Char → Option α) : List Char → Option α
  | [] => f []
  | c :: cs =>
    match f (c :: cs) with
    | some a => some a
    | none => scanFor f cs

/-- Captured number of the budget upper-bound regex of parseUserIntent, applied to the
already lowercased conversation text. -/
def budgetMaxCap (allText : String) : Option String :=
  (scanFor (kwNumCapAt ["under", "below", "max", "upto", "up to"]) allText.data).map String.mk

/-- Captured number of the budget lower-bound regex of parseUserIntent. -/
def budgetMinCap (allText : String) : Option String :=
  (scanFor (kwNumCapAt ["above", "over", "min", "from"]) allText.data).map String.mk

/-- Replace the first occurrence of k or thousand by three zeros (the source uses a
non-global regex replace). -/
def replaceKTh : List Char → List Char
  | [] => []
  | c :: cs =>
    if c == 'k' then '0' :: '0' :: '0' :: cs
    else if chPre "thousand".data (c :: cs) then '0' :: '0' :: '0' :: ((c :: cs).drop 8)
    else c :: replaceKTh cs

/-- Decimal value of the leading digit run (models parseInt with radix 10 on the digit
strings the budget extraction produces). -/
def parseIntJS (s : List Char) : Nat :=
  ((s.span Char.isDigit).1).foldl (fun a c => a * 10 + (c.toNat - 48)) 0

/-- Numeric budget bound from a captured group: strip commas, expand the thousands
suffix, parse as an integer. -/
def budgetNum (cap : String) : Nat :=
  parseIntJS (replaceKTh (cap.data.filter (· != ',')))

/-! Data model of the reasoning engine. -/

inductive Purpose
  | travel_vlogging
  | beginner_photography
  | low_light_events
deriving DecidableEq

def purposeStr : Purpose → String
  | .travel_vlogging => "travel_vlogging"
  | .beginner_photography => "beginner_photography"
  | .low_light_events => "low_light_events"

structure Budget where
  min : Option Nat
  max : Option Nat
  currency : String
deriving DecidableEq

/-- Value of a key_attributes entry: the source stores strings and numbers. -/
inductive AttrVal
  | str (s : String)
  | num (n : Int)
deriving DecidableEq

/-- Template-literal rendering of an attribute value. -/
def AttrVal.jsStr : AttrVal → String
  | .str s => s
  | .num n => toString n

/-- JavaScript truthiness of an attribute value. -/
def AttrVal.jsTruthy : AttrVal → Bool
  | .str s => s != ""
  | .num n => n != 0

structure UserIntent where
  purpose : Option Purpose
  budget : Option Budget
  category : Option String
  key_attributes : List (String × AttrVal)
  comparison_request : Option (List String)
deriving DecidableEq

/-! Chat messages (shared library type; only the fields the embedded functions read are
modelled). -/

inductive Role
  | user
  | assistant
deriving DecidableEq

structure RetailUIInfo where
  type : String
deriving DecidableEq

structure AssistantUIModel where
  retailUI : Option RetailUIInfo
deriving DecidableEq

structure ProductCard where
  id : String
deriving DecidableEq

structure ChatMessage where
  role : Role
  content : String
  products : Option (List ProductCard)
  ui : Option AssistantUIModel
deriving DecidableEq

/-- Intent extraction from the chat transcript (parseUserIntent of the reasoning
engine). -/
def parseUserIntent (messages : List ChatMessage) : UserIntent :=
  let allText := lowerStr (String.intercalate " " (messages.map (·.content)))
  let purpose : Option Purpose :=
    if strIncludes allText "travel" && strIncludes allText "vlog" then
      some .travel_vlogging
    else if strIncludes allText "beginner" || strIncludes allText "learning" then
      some .beginner_photography
    else if strIncludes allText "low light" || strIncludes allText "night" ||
        strIncludes allText "event" then
      some .low_light_events
    else none
  let mxCap := budgetMaxCap allText
  let mnCap := budgetMinCap allText
  let budget : Option Budget :=
    if mxCap.isSome || mnCap.isSome then
      some { min := mnCap.map budgetNum, max := mxCap.map budgetNum, currency := "INR" }
    else none
  let category : Option String :=
    [("camera", "Camera"), ("lens", "Lens"), ("tripod", "Tripod"),
     ("microphone", "Microphone"), ("bag", "Bag")].findSome?
      (fun kv => if strIncludes allText kv.1 then some kv.2 else none)
  let comparison_request : Option (List String) :=
    if strIncludes allText "compare" || strIncludes allText " vs " ||
        strIncludes allText "difference" then
      some []
    else none
  { purpose, budget, category, key_attributes := [], comparison_request }

/-! Configuration table keyed by purpose.  The JSON file is loaded from outside the
source tree; the spec lists it among the injectable configuration surface, so the
embedding takes it as a parameter. -/

structure PurposeEntry where
  top_attributes : List String
  attribute_weights : List (String × ℚ)
  recommended_clarifying_questions : List String

def PurposeMap := Purpose → Option PurposeEntry

structure ClarifyingQuestion where
  text : String
  options : List String
deriving DecidableEq

/-- Fixed purpose question returned when no purpose is known. -/
def purposeQuestion : ClarifyingQuestion :=
  { text := "What will you primarily use this camera for?",
    options := ["Travel vlogging", "Beginner photography", "Low light events",
      "Something else"] }

/-- Fixed options attached to a budget question. -/
def budgetOptions : List String :=
  ["Under 20,000", "20,000 - 50,000", "50,000 - 1,00,000", "Above 1,00,000"]

/-- Condition under which the source treats the budget as missing: no budget object, or
neither bound truthy. -/
def budgetAbsent (intent : UserIntent) : Bool :=
  match intent.budget with
  | none => true
  | some b => !(jsTruthyN b.min || jsTruthyN b.max)

/-- Clarifying-question selection (decideNextQuestion of the reasoning engine). -/
def decideNextQuestion (pmap : PurposeMap) (intent : UserIntent) :
    Option ClarifyingQuestion :=
  match intent.purpose with
  | none => some purposeQuestion
  | some p =>
    let questions := match pmap p with
      | some e => e.recommended_clarifying_questions
      | none => []
    let budgetQ := if budgetAbsent intent then
        questions.find? (fun q => strIncludes (lowerStr q) "budget")
      else none
    match budgetQ with
    | some q => some { text := q, options := budgetOptions }
    | none =>
      match questions.filter (fun q => !(strIncludes (lowerStr q) "budget")) with
      | q :: _ => some { text := q, options := [] }
      | [] => none

/-! Raw product records of the vector store (the embedding vector itself is irrelevant
to the reasoning core and omitted). -/

structure ProductRecord where
  id : String
  title : String
  handle : String
  vendor : String
  productType : String
  description : String
  price : Int
  currency : String
  imageUrl : String
  imageAlt : String
  allTags : String
  priceTier : String
  embeddingText : String
deriving DecidableEq

inductive Availability
  | in_stock
  | out_of_stock
  | unknown
deriving DecidableEq

inductive Fit
  | high
  | medium
  | low
  | unknown
deriving DecidableEq

structure Price where
  value : Int
  currency : String
  as_of : String
deriving DecidableEq

/-- Semantic profile of one candidate.  The three optional use-case-fit fields mirror the
optional keys of the use_case_fit object. -/
structure ProductSemanticProfile where
  product_id : String
  title : String
  category : String
  price : Option Price
  availability : Availability
  key_attributes : List (String × AttrVal)
  fit_travel_vlogging : Option Fit
  fit_beginner_photography : Option Fit
  fit_low_light_events : Option Fit
  proof : List String
deriving DecidableEq

def ProductSemanticProfile.useCaseFit (p : ProductSemanticProfile) : Purpose → Option Fit
  | .travel_vlogging => p.fit_travel_vlogging
  | .beginner_photography => p.fit_beginner_photography
  | .low_light_events => p.fit_low_light_events

/-- Match, at the start of the input, the weight regex: digits, optional whitespace and a
unit out of g, gram, grams, kg, kilogram; returns the captured digits. -/
def weightCapAt (s : List Char) : Option (List Char) :=
  match numDigits s with
  | none => none
  | some nd =>
    let r := dropWsL nd.2
    if ["g", "gram", "grams", "kg", "kilogram"].any (fun u => chPreCI u.data r) then
      some nd.1
    else none

/-- Concatenation of the lowercased description, tags and embedding text over which
normalizeProduct extracts attributes. -/
def recordAllText (record : ProductRecord) : String :=
  lowerStr record.description ++ " " ++ lowerStr record.allTags ++ " " ++
    lowerStr record.embeddingText

/-- Video-resolution extraction branch of normalizeProduct: value and pushed proof
entries. -/
def extractVres (allText : String) : AttrVal × List String :=
  if strIncludes allText "4k" || strIncludes allText "4 k" then
    (.str "4K", ["description"])
  else if strIncludes allText "1080p" || strIncludes allText "full hd" then
    (.str "1080p", ["description"])
  else (.str "unknown", [])

/-- Sensor-size extraction branch of normalizeProduct. -/
def extractSensor (allText : String) : AttrVal × List String :=
  if strIncludes allText "full frame" || strIncludes allText "full-frame" then
    (.str "full_frame", ["body_html"])
  else if strIncludes allText "aps-c" || strIncludes allText "aps c" then
    (.str "aps_c", ["body_html"])
  else (.str "unknown", [])

/-- Low-light extraction branch of normalizeProduct. -/
def extractLowLight (allText : String) : AttrVal × List String :=
  if strIncludes allText "low light" || strIncludes allText "night" then
    (.str "high", ["description"])
  else (.str "unknown", [])

/-- Weight extraction branch of normalizeProduct: leftmost weight-regex match, with the
below-one-thousand heuristic converting kilogram readings to grams. -/
def extractWeight (allText : String) : AttrVal × List String :=
  match scanFor weightCapAt allText.data with
  | some ds =>
    (if (parseIntJS ds : Int) < 1000 then .num (parseIntJS ds)
     else .num ((parseIntJS ds : Int) * 1000), ["body_html"])
  | none => (.str "unknown", [])

/-- Normalization of a raw record into a semantic profile (normalizeProduct of the
reasoning engine).  The source stamps price.as_of with the current wall-clock time; the
clock reading is the explicit argument now. -/
def normalizeProduct (record : ProductRecord) (now : String) : ProductSemanticProfile :=
  let price := record.price
  let allText := recordAllText record
  let vres : AttrVal := (extractVres allText).1
  let proof1 : List String := (extractVres allText).2
  let sensor : AttrVal := (extractSensor allText).1
  let proof2 : List String := (extractSensor allText).2
  let lowlight : AttrVal := (extractLowLight allText).1
  let proof3 : List String := (extractLowLight allText).2
  let weightAttr : AttrVal := (extractWeight allText).1
  let proof4 : List String := (extractWeight allText).2
  let attrs : List (String × AttrVal) :=
    [("video_resolution", vres), ("sensor_size", sensor),
     ("low_light_performance", lowlight), ("weight_grams", weightAttr)]
  let isLightWeight : Bool :=
    match weightAttr with
    | .num w => decide (w < 500)
    | .str _ => false
  let fitTravel : Option Fit :=
    if isLightWeight then some .high
    else if vres = AttrVal.str "4K" then some .medium
    else some .unknown
  let fitLowLight : Option Fit :=
    if lowlight = AttrVal.str "high" ∨ sensor = AttrVal.str "full_frame" then some .high
    else some .unknown
  let fitBeginner : Option Fit :=
    if price ≠ 0 ∧ price < 50000 then some .medium else some .unknown
  let proofAll := proof1 ++ proof2 ++ proof3 ++ proof4
  { product_id := record.id,
    title := record.title,
    category := if record.productType != "" then record.productType else "Unknown",
    price := if price ≠ 0 then some { value := price, currency := "INR", as_of := now }
      else none,
    availability := .unknown,
    key_attributes := attrs,
    fit_travel_vlogging := fitTravel,
    fit_beginner_photography := fitBeginner,
    fit_low_light_events := fitLowLight,
    proof := if proofAll.length > 0 then proofAll else ["title"] }

/-- Property lookup on a key_attributes object (objects cannot repeat keys, so the
association list look-up is exact). -/
def attrLookup (attrs : List (String × AttrVal)) (k : String) : Option AttrVal :=
  attrs.lookup k

/-- Contribution of the weight-table loop of scoreProduct: for every configured attribute
whose profile value is present, truthy and not the sentinel, add weight times ten and a
reason.  The in-place accumulation of the source is rendered as a fold from zero. -/
def attrScore (weights : List (String × ℚ)) (attrs : List (String × AttrVal)) :
    ℚ × List String :=
  weights.foldl
    (fun acc kv =>
      match attrLookup attrs kv.1 with
      | some v =>
        if v.jsTruthy && v != AttrVal.str "unknown" then
          (acc.1 + kv.2 * 10, acc.2 ++ ["Has " ++ kv.1 ++ ": " ++ v.jsStr])
        else acc
      | none => acc)
    (0, [])

/-! Scoring of a profile against the intent (scoreProduct of the reasoning engine); the
four contributions appear in source order and the source accumulates them in place.
Each sequential block of the source is a named part. -/

/-- Purpose-fit block of scoreProduct. -/
def scorePurposePart (intent : UserIntent) (profile : ProductSemanticProfile) :
    ℚ × List String :=
  match intent.purpose with
  | some p =>
    match profile.useCaseFit p with
    | some Fit.high => (10, ["Excellent fit for " ++ purposeStr p])
    | some Fit.medium => (5, ["Good fit for " ++ purposeStr p])
    | some Fit.low => (1, ["Limited fit for " ++ purposeStr p])
    | _ => (0, [])
  | none => (0, [])

/-- Weight-table block of scoreProduct. -/
def scoreAttrPart (pmap : PurposeMap) (intent : UserIntent)
    (profile : ProductSemanticProfile) : ℚ × List String :=
  match intent.purpose with
  | some p =>
    match pmap p with
    | some e => attrScore e.attribute_weights profile.key_attributes
    | none => (0, [])
  | none => (0, [])

/-- Budget block of scoreProduct, with the truthiness tests of the source on both
bounds. -/
def scoreBudgetPart (intent : UserIntent) (profile : ProductSemanticProfile) :
    ℚ × List String :=
  match intent.budget, profile.price with
  | some b, some pp =>
    let maxHit : Bool :=
      match b.max with
      | some m => m != 0 && decide (pp.value ≤ (m : Int))
      | none => false
    let minHit : Bool :=
      match b.min with
      | some m => m != 0 && decide ((m : Int) ≤ pp.value)
      | none => false
    ((if maxHit then 5 else 0) + (if minHit then 2 else 0),
     if maxHit then ["Within budget"] else [])
  | _, _ => (0, [])

/-- Category block of scoreProduct, with the truthiness test of the source on the
category. -/
def scoreCategoryPart (intent : UserIntent) (profile : ProductSemanticProfile) :
    ℚ × List String :=
  let catHit : Bool :=
    match intent.category with
    | some c => c != "" && strIncludes (lowerStr profile.category) (lowerStr c)
    | none => false
  if catHit then (3, ["Matches category: " ++ profile.category]) else (0, [])

def scoreProduct (pmap : PurposeMap) (intent : UserIntent)
    (profile : ProductSemanticProfile) : ℚ × List String :=
  let pr1 := scorePurposePart intent profile
  let pr2 := scoreAttrPart pmap intent profile
  let pr3 := scoreBudgetPart intent profile
  let pr4 := scoreCategoryPart intent profile
  (pr1.1 + pr2.1 + pr3.1 + pr4.1, pr1.2 ++ pr2.2 ++ pr3.2 ++ pr4.2)

inductive Confidence
  | high
  | medium
  | low
deriving DecidableEq

structure Recommendation where
  product_id : String
  title : String
  price : Option Price
  availability : Availability
  why_it_fits : List String
  tradeoffs : List String
  confidence : Confidence
  proof : List String
deriving DecidableEq

structure Scored where
  profile : ProductSemanticProfile
  score : ℚ
  reasons : List String
deriving DecidableEq

/-- Scored candidates in ranking order.  The source sorts with the comparator on score
difference under the stable array sort, which is exactly the stable merge sort by
non-increasing score. -/
def scoredSorted (pmap : PurposeMap) (intent : UserIntent)
    (profiles : List ProductSemanticProfile) : List Scored :=
  (profiles.map (fun profile =>
      let sr := scoreProduct pmap intent profile
      { profile := profile, score := sr.1, reasons := sr.2 : Scored })).mergeSort
    (fun a b => decide (b.score ≤ a.score))

/-- Conversion of a scored candidate into an output recommendation, with the per-item
confidence thresholds and the tradeoff heuristics of the source. -/
def mkRecommendation (s : Scored) : Recommendation :=
  let conf : Confidence :=
    if s.score ≥ 15 then .high else if s.score ≥ 8 then .medium else .low
  let why := s.reasons.filter
    (fun r => !(strIncludes r "Within budget") && !(strIncludes r "Matches category"))
  let tr1 : List String :=
    match s.profile.price with
    | some pp => if pp.value > 50000 then ["Higher price point"] else []
    | none => []
  let tr2 : List String :=
    if attrLookup s.profile.key_attributes "weight_grams" = some (AttrVal.str "unknown")
    then ["Weight information not available"] else []
  let tradeoffs := tr1 ++ tr2
  { product_id := s.profile.product_id, title := s.profile.title,
    price := s.profile.price, availability := s.profile.availability,
    why_it_fits := if why.length > 0 then why else ["Matches your search criteria"],
    tradeoffs := if tradeoffs.length > 0 then tradeoffs
      else ["No major tradeoffs identified"],
    confidence := conf, proof := s.profile.proof }

/-- Mean score of the selected candidates.  On the empty list the source divides zero by
zero giving NaN, whose threshold comparisons are false, which coincides with the rational
convention of division by zero. -/
def meanScore (l : List Scored) : ℚ := (l.map Scored.score).sum / l.length

/-- Ranking (recommend of the reasoning engine): sort, take the top three, convert, and
derive the overall confidence from the mean score of the selected set. -/
def recommend (pmap : PurposeMap) (intent : UserIntent)
    (profiles : List ProductSemanticProfile) : List Recommendation × Confidence :=
  let top := (scoredSorted pmap intent profiles).take 3
  let recommendations := top.map mkRecommendation
  let avg := meanScore top
  let overall : Confidence :=
    if avg ≥ 12 then .high else if avg ≥ 6 then .medium else .low
  (recommendations, overall)

structure BestFor where
  a : List String
  b : List String
deriving DecidableEq

structure Comparison where
  product_a : Recommendation
  product_b : Recommendation
  differences : List String
  best_for : BestFor
deriving DecidableEq

/-- Template-literal rendering of a possibly missing attribute value: an absent property
reads undefined and prints as the literal text undefined. -/
def jsShowAttr : Option AttrVal → String
  | none => "undefined"
  | some v => v.jsStr

/-- Price block of compare: difference entry and best-for entries when both prices are
present and differ. -/
def priceDiffs (pa pb : ProductSemanticProfile) :
    List String × List String × List String :=
  match pa.price, pb.price with
  | some a, some b =>
    if a.value < b.value then
      (["Product A is ₹" ++ toString (b.value - a.value) ++ " cheaper"],
       ["Budget-conscious buyers"], [])
    else if b.value < a.value then
      (["Product B is ₹" ++ toString (a.value - b.value) ++ " cheaper"],
       [], ["Budget-conscious buyers"])
    else ([], [], [])
  | _, _ => ([], [], [])

/-- Attribute loop body of compare: an entry is produced for a key of product A whose
value is not the sentinel whenever the value of product B (undefined when the key is
absent) is neither the sentinel nor equal to it. -/
def attrDiffEntry (pb : ProductSemanticProfile) (kv : String × AttrVal) : Option String :=
  let vB := attrLookup pb.key_attributes kv.1
  let differs : Bool := kv.2 != AttrVal.str "unknown" &&
    (match vB with
     | none => true
     | some v => v != AttrVal.str "unknown" && v != kv.2)
  if differs then some (kv.1 ++ ": A has " ++ kv.2.jsStr ++ ", B has " ++ jsShowAttr vB)
  else none

def attrDiffs (pa pb : ProductSemanticProfile) : List String :=
  pa.key_attributes.filterMap (attrDiffEntry pb)

/-- Use-case block of compare: a one-sided high fit attributes the purpose to that
side. -/
def fitBestFor (pa pb : ProductSemanticProfile) (intent : UserIntent) :
    List String × List String :=
  match intent.purpose with
  | some p =>
    let fitA := pa.useCaseFit p
    let fitB := pb.useCaseFit p
    if fitA = some Fit.high ∧ fitB ≠ some Fit.high then ([purposeStr p], [])
    else if fitB = some Fit.high ∧ fitA ≠ some Fit.high then ([], [purposeStr p])
    else ([], [])
  | none => ([], [])

/-- Recommendation shell that compare wraps around each side. -/
def stripRec (p : ProductSemanticProfile) : Recommendation :=
  { product_id := p.product_id, title := p.title, price := p.price,
    availability := p.availability, why_it_fits := [], tradeoffs := [],
    confidence := .medium, proof := p.proof }

/-- Structured comparison of two profiles (compare of the reasoning engine; renamed
because the source name collides with the ordering function of the Lean prelude). -/
def compareProducts (pa pb : ProductSemanticProfile) (intent : UserIntent) : Comparison :=
  let pd := priceDiffs pa pb
  let ad := attrDiffs pa pb
  let fb := fitBestFor pa pb intent
  let differences := pd.1 ++ ad
  let bestA := pd.2.1 ++ fb.1
  let bestB := pd.2.2 ++ fb.2
  { product_a := stripRec pa, product_b := stripRec pb,
    differences := if differences.length > 0 then differences
      else ["No significant differences found"],
    best_for := { a := if bestA.length > 0 then bestA else ["General use"],
                  b := if bestB.length > 0 then bestB else ["General use"] } }

/-- Catalog subset fetch (fetchCatalogSubset of the reasoning engine).  The embedding
lookup and the vector search with limit and price filters are the external store; its
reply is the searchResults argument, and initialized is the store initialization flag.
The source then filters by category in process. -/
def fetchCatalogSubset (initialized : Bool) (searchResults : List ProductRecord)
    (intent : UserIntent) : List ProductRecord :=
  if !initialized then []
  else
    match intent.category with
    | some c =>
      if c != "" then
        searchResults.filter (fun r => strIncludes (lowerStr r.productType) (lowerStr c))
      else searchResults
    | none => searchResults

inductive Mode
  | clarify
  | recommend
  | compare
  | fail
deriving DecidableEq

structure AgentResponse where
  mode : Mode
  intent : UserIntent
  clarifying_question : Option ClarifyingQuestion
  recommendations : List Recommendation
  comparison : Option Comparison
  errors : List String
deriving DecidableEq

/-- Orchestration of one turn after intent parsing (the body of reason of the reasoning
engine, which computes the intent from the transcript and then runs these steps).  The
now argument is the wall clock passed on to normalizeProduct. -/
def reasonFromIntent (pmap : PurposeMap) (now : String) (intent : UserIntent)
    (initialized : Bool) (searchResults : List ProductRecord) : AgentResponse :=
  match decideNextQuestion pmap intent with
  | some q =>
    { mode := .clarify, intent := intent, clarifying_question := some q,
      recommendations := [], comparison := none, errors := [] }
  | none =>
    let products := fetchCatalogSubset initialized searchResults intent
    if products.isEmpty then
      { mode := .fail, intent := intent, clarifying_question := none,
        recommendations := [], comparison := none,
        errors := ["No products found matching criteria"] }
    else
      let profiles := products.map (fun r => normalizeProduct r now)
      let step5 : Option Comparison × List String :=
        match intent.comparison_request with
        | some (a :: b :: _) =>
          match profiles.find? (fun p => p.product_id == a),
              profiles.find? (fun p => p.product_id == b) with
          | some x, some y => (some (compareProducts x y intent), [])
          | _, _ => (none, ["Could not find products for comparison"])
        | _ => (none, [])
      match step5.1 with
      | some comp =>
        { mode := .compare, intent := intent, clarifying_question := none,
          recommendations := [], comparison := some comp, errors := [] }
      | none =>
        let rc := recommend pmap intent profiles
        if rc.1.isEmpty then
          { mode := .fail, intent := intent, clarifying_question := none,
            recommendations := [], comparison := none,
            errors := ["No suitable recommendations found"] }
        else
          { mode := .recommend, intent := intent, clarifying_question := none,
            recommendations := rc.1, comparison := none, errors := step5.2 }

/-- Main turn function (reason of the reasoning engine). -/
def reason (pmap : PurposeMap) (now : String) (messages : List ChatMessage)
    (initialized : Bool) (searchResults : List ProductRecord) : AgentResponse :=
  reasonFromIntent pmap now (parseUserIntent messages) initialized searchResults

/-! Retail conversation agent.  The LLM call is the external intent extractor: its parsed
structured output is the ParsedGemini argument of processRetailConversation, and the
retail vector search is an oracle whose combined reply is the fetched argument (an empty
list covers both the no-result and the search-error case, since the source swallows fetch
errors).  The surrounding try-catch of the source only handles extractor failure and
returns a fixed fallback outside the clarification logic. -/

structure ConversationState where
  intent : Option String
  primary_use : Option String
  experience_level : Option String
  budget_range : Option String
  constraints_locked : Bool
deriving DecidableEq

/-- Confidence score from state completeness (calculateConfidence of the retail agent).
The source sums IEEE doubles 0.3, 0.3 and 0.4 and clamps; at every reachable value the
double comparisons agree with the exact rational ones (two 0.3 terms add exactly, and the
sum of all three is exactly 1), so the rational model is faithful. -/
def calculateConfidence (state : ConversationState) : ℚ :=
  let c1 : ℚ := if jsTruthyS state.intent then 3/10 else 0
  let c2 : ℚ :=
    if jsTruthyS state.primary_use || jsTruthyS state.experience_level then 3/10 else 0
  let c3 : ℚ := if jsTruthyS state.budget_range then 4/10 else 0
  max 0 (min 1 (c1 + c2 + c3))

/-- Word alternatives of the question-detection regex fallback. -/
def questionWords : List String :=
  ["?", "what", "which", "how", "when", "where", "would you", "could you", "tell me"]

/-- Word alternatives of the product-mention regex fallback. -/
def productWords : List String :=
  ["price", "product", "recommend", "here are", "options", "suggest"]

/-- Occurrence of a dollar or rupee sign immediately followed by a digit. -/
def hasCurrencyDigit : List Char → Bool
  | [] => false
  | [_] => false
  | a :: b :: rest =>
    ((a == '$' || a == '₹') && b.isDigit) || hasCurrencyDigit (b :: rest)

/-- Number of clarifying questions in the history (countClarifyingQuestions of the retail
agent): assistant turns typed question without products, or, as a fallback heuristic,
question-like text without product mentions. -/
def countClarifyingQuestions (history : List ChatMessage) : Nat :=
  history.foldl
    (fun n msg =>
      if msg.role = Role.assistant then
        let retailUIType := (msg.ui.bind (·.retailUI)).map (·.type)
        let isQuestionType := retailUIType == some "question"
        let hasNoProducts :=
          match msg.products with
          | none => true
          | some l => l.isEmpty
        if isQuestionType && hasNoProducts then n + 1
        else if !isQuestionType && hasNoProducts then
          let low := lowerStr msg.content
          let isQuestion := questionWords.any (fun w => strIncludes low w)
          let hasProducts := hasCurrencyDigit low.data ||
            productWords.any (fun w => strIncludes low w)
          if isQuestion && !hasProducts then n + 1 else n
        else n
      else n)
    0

/-! Budget fallback regex of the retail agent, matched case-insensitively against the raw
user message; the whole matched text becomes the budget range.  The four alternatives:
explicit range, upper-bound keyword, lower-bound keyword, bare currency amount. -/

/-- Range alternative: number, optional decimals, separator to or dash or en dash, number
with optional decimals; returns the rest after the match. -/
def altRangeAt (s : List Char) : Option (List Char) :=
  match numToken s with
  | none => none
  | some nt1 =>
    let d1 := optDec nt1.2
    let r1 := dropWsL d1.2
    let sep : Option (List Char) :=
      if chPreCI "to".data r1 then some (r1.drop 2)
      else if chPre ['-'] r1 then some (r1.drop 1)
      else if chPre ['–'] r1 then some (r1.drop 1)
      else none
    match sep with
    | none => none
    | some r2 =>
      let r3 := dropWsL r2
      match numToken r3 with
      | none => none
      | some nt2 => some (optDec nt2.2).2

/-- Bound alternative: keyword, optional currency, number; returns the rest. -/
def altKwAt (kws : List String) (s : List Char) : Option (List Char) :=
  kws.findSome? fun kw =>
    if chPreCI kw.data s then
      let r1 := dropWsL (s.drop kw.length)
      (curRests r1).findSome? fun r2 =>
        let r3 := dropWsL r2
        (numToken r3).map (·.2)
    else none

/-- Currency alternative: mandatory currency marker, then a number; returns the rest. -/
def altCurAt (s : List Char) : Option (List Char) :=
  let cands :=
    (if chPreCI "rs.".data s then [s.drop 3] else []) ++
    (if chPreCI "rs".data s then [s.drop 2] else []) ++
    (if chPreCI "inr".data s then [s.drop 3] else []) ++
    (if chPreCI "₹".data s then [s.drop 1] else [])
  cands.findSome? fun r1 =>
    let r2 := dropWsL r1
    (numToken r2).map (·.2)

/-- All four alternatives at one position, in the order of the regex. -/
def retailBudgetAt (t : List Char) : Option (List Char) :=
  match altRangeAt t with
  | some r => some r
  | none =>
    match altKwAt ["under", "below", "max", "upto"] t with
    | some r => some r
    | none =>
      match altKwAt ["above", "over", "min"] t with
      | some r => some r
      | none => altCurAt t

/-- Leftmost match returning the matching suffix and the rest after the match. -/
def scanForMatch (f : List Char → Option (List Char)) :
    List Char → Option (List Char × List Char)
  | [] => (f []).map (fun r => ([], r))
  | c :: cs =>
    match f (c :: cs) with
    | some r => some (c :: cs, r)
    | none => scanForMatch f cs

/-- Full matched text of the budget fallback regex on the user message. -/
def retailBudgetMatch (userMessage : String) : Option String :=
  (scanForMatch retailBudgetAt userMessage.data).map fun p =>
    String.mk (p.1.take (p.1.length - p.2.length))

/-! Structured output of the intent extractor and the retail response shape. -/

structure GeminiComparison where
  productAId : String
  productBId : String
  tradeoffs : Option (List String)
deriving DecidableEq

structure GeminiCheckout where
  itemIds : Option (List String)
  total : Option Int
deriving DecidableEq

structure ParsedGemini where
  updateIntent : Option String
  updatePrimaryUse : Option String
  updateExperienceLevel : Option String
  updateBudgetRange : Option String
  acknowledgment : String
  question : Option String
  recommendation : Option String
  uiType : String
  chips : Option (List String)
  shouldFetchProducts : Bool
  searchQuery : Option String
  category : Option String
  comparison : Option GeminiComparison
  checkout : Option GeminiCheckout
deriving DecidableEq

structure RetailProduct where
  id : String
  name : String
  category : String
  description : String
  price : Int
  currency : String
deriving DecidableEq

structure UIComparison where
  productAId : String
  productBId : String
  tradeoffs : List String
deriving DecidableEq

structure UICheckout where
  itemIds : List String
  total : Int
deriving DecidableEq

structure RetailUI where
  type : String
  chips : Option (List String)
  comparison : Option UIComparison
  checkout : Option UICheckout
deriving DecidableEq

structure RetailAgentResponse where
  message : String
  state : ConversationState
  products : Option (List RetailProduct)
  ui : RetailUI
  shouldFetchProducts : Bool
  confidence : ℚ
deriving DecidableEq

/-- One state field update: applied only when the proposed value is truthy and not the
literal text null. -/
def updField (cur : Option String) (upd : Option String) : Option String :=
  match upd with
  | some v => if v != "" && v != "null" then some v else cur
  | none => cur

/-- State after the extractor updates and the budget regex fallback on the raw user
message. -/
def retailUpdatedState (parsed : ParsedGemini) (current : ConversationState)
    (userMessage : String) : ConversationState :=
  let s1 : ConversationState :=
    { current with
      intent := updField current.intent parsed.updateIntent,
      primary_use := updField current.primary_use parsed.updatePrimaryUse,
      experience_level := updField current.experience_level parsed.updateExperienceLevel,
      budget_range := updField current.budget_range parsed.updateBudgetRange }
  if !(jsTruthyS s1.budget_range) then
    match retailBudgetMatch userMessage with
    | some m => { s1 with budget_range := some m }
    | none => s1
  else s1

def apos : Char := Char.ofNat 39

def defaultRecommendationMsg : String :=
  "Based on what you" ++ String.mk [apos] ++
    "ve told me, here are some options that match your needs:"

def fallbackGearMsg : String :=
  "I" ++ String.mk [apos] ++ "d be happy to help you find the right gear!"

/-- Phrases stripped from the recommendation text, in regex alternation order. -/
def searchingPhrases : List String :=
  ["i" ++ String.mk [apos] ++ "m looking for",
   "i" ++ String.mk [apos] ++ "m searching for",
   "i" ++ String.mk [apos] ++ "ll look for",
   "let me find",
   "i" ++ String.mk [apos] ++ "m finding"]

/-- Global case-insensitive removal of the searching phrases. -/
def stripPhrases : Nat → List Char → List Char
  | 0, s => s
  | _, [] => []
  | fuel + 1, c :: cs =>
    match searchingPhrases.findSome? (fun ph =>
        if chPreCI ph.data (c :: cs) then some ((c :: cs).drop ph.length) else none) with
    | some rest => stripPhrases fuel rest
    | none => c :: stripPhrases fuel cs

/-- Global replacement of whitespace runs by one space. -/
def collapseWs : Nat → List Char → List Char
  | 0, s => s
  | _ + 1, [] => []
  | fuel + 1, c :: cs =>
    if isWsChar c then ' ' :: collapseWs fuel (dropWsL cs) else c :: collapseWs fuel cs

/-- Cleanup of the recommendation text: strip searching phrases, collapse whitespace,
trim. -/
def cleanRecommendation (r : String) : String :=
  let t := stripPhrases r.data.length r.data
  (String.mk (collapseWs t.length t)).trim

/-- Response message: acknowledgment, question when not locked, cleaned recommendation
when locked, with the fixed fallback when everything is empty. -/
def buildRetailMessage (p : ParsedGemini) (st : ConversationState) : String :=
  let parts : List String :=
    (if p.acknowledgment != "" then [p.acknowledgment] else []) ++
    (match p.question with
     | some q => if q != "" && !st.constraints_locked then [q] else []
     | none => []) ++
    (match p.recommendation with
     | some r => if r != "" && st.constraints_locked then [cleanRecommendation r] else []
     | none => [])
  let m := String.intercalate " " parts
  if m != "" then m else fallbackGearMsg

/-- Truthy state fields in query order. -/
def stateQueryParts (st : ConversationState) : List String :=
  (match st.intent with | some v => if v != "" then [v] else [] | none => []) ++
  (match st.primary_use with | some v => if v != "" then [v] else [] | none => []) ++
  (match st.experience_level with | some v => if v != "" then [v] else [] | none => []) ++
  (match st.budget_range with | some v => if v != "" then [v] else [] | none => [])

/-- Concatenated contents of the last four history messages. -/
def lastFourContents (history : List ChatMessage) : String :=
  String.intercalate " " ((history.drop (history.length - 4)).map (·.content))

/-- Comprehensive search query of the forced-display branch: state fields, the user
message, and recent history context. -/
def buildQueryA (st : ConversationState) (userMessage : String)
    (history : List ChatMessage) : String :=
  let parts := stateQueryParts st ++ [userMessage] ++
    (if history.isEmpty then [] else [lastFourContents history])
  let q := (String.intercalate " " parts).trim
  if q != "" then q else userMessage

/-- Search query of the other branches: state fields and the user message. -/
def buildQueryB (st : ConversationState) (userMessage : String) : String :=
  let q := (String.intercalate " " (stateQueryParts st ++ [userMessage])).trim
  if q != "" then q else userMessage

/-- Forced-display test of the retail agent: the clarifying cap of two together with the
0.6 confidence threshold, or the 0.8 high-confidence override. -/
def retailDecision (clarifyingCount : Nat) (confidence : ℚ) : Bool :=
  (decide (clarifyingCount ≥ 2) && decide (confidence ≥ 6/10)) ||
    decide (confidence ≥ 8/10)

/-- Branches of the retail agent that lock constraints and force product display: the
forced-display branch, then the all-criteria branch.  Returns the state, the mutated
extractor output and the force flag. -/
def retailABC (parsed : ParsedGemini) (st0 : ConversationState) (userMessage : String)
    (history : List ChatMessage) (cc : Nat) (conf : ℚ) :
    ConversationState × ParsedGemini × Bool :=
  if retailDecision cc conf then
    ({ st0 with constraints_locked := true },
     { parsed with
        shouldFetchProducts := true, uiType := "recommendation",
        searchQuery := some (buildQueryA st0 userMessage history),
        recommendation := if jsTruthyS parsed.recommendation then parsed.recommendation
          else some defaultRecommendationMsg },
     true)
  else if jsTruthyS st0.intent &&
      (jsTruthyS st0.primary_use || jsTruthyS st0.experience_level) &&
      jsTruthyS st0.budget_range then
    ({ st0 with constraints_locked := true },
     { parsed with
        shouldFetchProducts := true,
        searchQuery := if jsTruthyS parsed.searchQuery then parsed.searchQuery
          else some (buildQueryB st0 userMessage),
        recommendation := if jsTruthyS parsed.recommendation then parsed.recommendation
          else some defaultRecommendationMsg },
     true)
  else (st0, parsed, false)

/-- Final forcing branch: constraints already locked but no fetch requested. -/
def retailC (userMessage : String) (t : ConversationState × ParsedGemini × Bool) :
    ConversationState × ParsedGemini × Bool :=
  let st := t.1
  let p := t.2.1
  if st.constraints_locked && !p.shouldFetchProducts then
    (st,
     { p with
        shouldFetchProducts := true,
        searchQuery := if jsTruthyS p.searchQuery then p.searchQuery
          else some (buildQueryB st userMessage) },
     true)
  else t

def dedupGo : List String → List RetailProduct → List RetailProduct
  | _, [] => []
  | seen, p :: rest =>
    if seen.contains p.id then dedupGo seen rest
    else p :: dedupGo (p.id :: seen) rest

/-- Deduplication by id, applied only when more than one product was fetched. -/
def dedupById (l : List RetailProduct) : List RetailProduct :=
  if l.length > 1 then dedupGo [] l else l

/-- One retail turn after a successful extractor call (processRetailConversation of the
retail agent).  The fetched argument is the concatenated reply of the external vector
search, used only when the agent decides to fetch. -/
def processRetailConversation (parsed : ParsedGemini) (currentState : ConversationState)
    (userMessage : String) (history : List ChatMessage)
    (fetched : List RetailProduct) : RetailAgentResponse :=
  let st0 := retailUpdatedState parsed currentState userMessage
  let confidence := calculateConfidence st0
  let cc := countClarifyingQuestions history
  let t := retailC userMessage (retailABC parsed st0 userMessage history cc confidence)
  let st := t.1
  let p2 := t.2.1
  let force := t.2.2
  let message := buildRetailMessage p2 st
  let shouldFetch := st.constraints_locked &&
    (p2.shouldFetchProducts || force ||
     (decide (cc ≥ 2) && decide (confidence ≥ 6/10)) || decide (confidence ≥ 8/10))
  let products := if shouldFetch then dedupById fetched else []
  let hasProductsToShow := !products.isEmpty
  let shouldShowRecommendation := hasProductsToShow ||
    (st.constraints_locked && (force || decide (confidence ≥ 8/10)))
  let uiType := if shouldShowRecommendation then "recommendation"
    else if p2.uiType != "" then p2.uiType else "question"
  let uiComparison : Option UIComparison :=
    match p2.comparison with
    | some c =>
      match products with
      | x :: y :: _ =>
        let pa := (products.find? (fun q => q.id == c.productAId)).getD x
        let pb := (products.find? (fun q => q.id == c.productBId)).getD y
        some { productAId := pa.id, productBId := pb.id,
               tradeoffs := c.tradeoffs.getD [] : UIComparison }
      | _ => none
    | none => none
  let uiCheckout : Option UICheckout :=
    match p2.checkout with
    | some c =>
      if products.isEmpty then none
      else
        let items : List RetailProduct :=
          match c.itemIds with
          | some ids => products.filter (fun q => ids.contains q.id)
          | none => products.take 3
        let total : Int := (items.map (fun q => q.price)).sum
        some { itemIds := items.map (fun q => q.id),
               total := match c.total with
                 | some tt => if tt != 0 then tt else total
                 | none => total }
    | none => none
  let finalProducts :=
    if st.constraints_locked && !products.isEmpty then some products else none
  { message := message, state := st, products := finalProducts,
    ui := { type := uiType, chips := p2.chips, comparison := uiComparison,
            checkout := uiCheckout },
    shouldFetchProducts := p2.shouldFetchProducts, confidence := confidence }

/-! Shared helper lemmas. -/

theorem calcConf_nonneg (s : ConversationState) : 0 ≤ calculateConfidence s := by
  unfold calculateConfidence
  exact le_max_left 0 _

theorem calcConf_le_one (s : ConversationState) : calculateConfidence s ≤ 1 := by
  unfold calculateConfidence
  exact max_le (by norm_num) (min_le_left _ _)

theorem clampMono {x y : ℚ} (h : x ≤ y) : max 0 (min 1 x) ≤ max 0 (min 1 y) :=
  max_le_max le_rfl (min_le_min le_rfl h)

theorem add3_le_left {a b x y : ℚ} (h : a ≤ b) : a + x + y ≤ b + x + y := by linarith

theorem add3_le_mid {a b x y : ℚ} (h : a ≤ b) : x + a + y ≤ x + b + y := by linarith

theorem add3_le_right {a b x y : ℚ} (h : a ≤ b) : x + y + a ≤ x + y + b := by linarith

/-- One additional conversation-state field set, all other fields unchanged. -/
def OneFieldAdded (s t : ConversationState) : Prop :=
  (s.intent = none ∧ ∃ v, t = { s with intent := some v }) ∨
  (s.primary_use = none ∧ ∃ v, t = { s with primary_use := some v }) ∨
  (s.experience_level = none ∧ ∃ v, t = { s with experience_level := some v }) ∨
  (s.budget_range = none ∧ ∃ v, t = { s with budget_range := some v })

/-- C9: for every conversation state, setting one additional field among intent,
primary_use or experience_level, and budget_range never decreases calculateConfidence,
and both confidence values lie in the unit interval. -/
theorem c9_confidence_monotone (s t : ConversationState) (h : OneFieldAdded s t) :
    calculateConfidence s ≤ calculateConfidence t ∧
    (0 ≤ calculateConfidence s ∧ calculateConfidence s ≤ 1) ∧
    (0 ≤ calculateConfidence t ∧ calculateConfidence t ≤ 1) := by
  refine ⟨?_, ⟨calcConf_nonneg s, calcConf_le_one s⟩,
    ⟨calcConf_nonneg t, calcConf_le_one t⟩⟩
  rcases h with ⟨h0, v, rfl⟩ | ⟨h0, v, rfl⟩ | ⟨h0, v, rfl⟩ | ⟨h0, v, rfl⟩ <;>
    unfold calculateConfidence <;> apply clampMono
  · apply add3_le_left
    rw [h0, show ({ s with intent := some v } : ConversationState).intent = some v
      from rfl, show jsTruthyS none = false from rfl, if_neg (by simp)]
    split <;> norm_num
  · apply add3_le_mid
    rw [h0,
      show ({ s with primary_use := some v } : ConversationState).primary_use = some v
        from rfl,
      show ({ s with primary_use := some v } : ConversationState).experience_level =
        s.experience_level from rfl,
      show jsTruthyS none = false from rfl, Bool.false_or]
    rcases Bool.eq_false_or_eq_true (jsTruthyS s.experience_level) with hE | hE <;>
      rw [hE]
    · rw [Bool.or_true]
    · rw [Bool.or_false, if_neg (by simp)]
      split <;> norm_num
  · apply add3_le_mid
    rw [h0,
      show ({ s with experience_level := some v } :
        ConversationState).experience_level = some v from rfl,
      show ({ s with experience_level := some v } : ConversationState).primary_use =
        s.primary_use from rfl,
      show jsTruthyS none = false from rfl, Bool.or_false]
    rcases Bool.eq_false_or_eq_true (jsTruthyS s.primary_use) with hP | hP <;> rw [hP]
    · rw [Bool.true_or]
    · rw [Bool.false_or, if_neg (by simp)]
      split <;> norm_num
  · apply add3_le_right
    rw [h0,
      show ({ s with budget_range := some v } : ConversationState).budget_range = some v
        from rfl,
      show jsTruthyS none = false from rfl, if_neg (by simp)]
    split <;> norm_num

/-- Witness for C9 at a concrete state pair. -/
theorem c9_witness :
    calculateConfidence
        { intent := some "travel", primary_use := none, experience_level := none,
          budget_range := none, constraints_locked := false } ≤
      calculateConfidence
        { intent := some "travel", primary_use := none, experience_level := none,
          budget_range := some "under 30000", constraints_locked := false } :=
  (c9_confidence_monotone _ _
    (Or.inr (Or.inr (Or.inr ⟨rfl, "under 30000", rfl⟩)))).1

/-! Concrete records for the normalizer claims. -/

def c6rec : ProductRecord :=
  { id := "77", title := "Pro Cam", handle := "pro-cam", vendor := "Acme",
    productType := "Camera", description := "A 4k camera", price := 52000,
    currency := "INR", imageUrl := "", imageAlt := "", allTags := "", priceTier := "",
    embeddingText := "" }

/-- Profile with the as_of stamp of the price blanked out. -/
def eraseAsOf (p : ProductSemanticProfile) : ProductSemanticProfile :=
  { p with price := p.price.map (fun pr => { pr with as_of := "" }) }

/-- C6 counterexample: normalizeProduct reads the wall clock for price.as_of, so two
calls on the same record at different instants yield different profiles; the function is
not deterministic in the record alone. -/
theorem c6_counterexample :
    normalizeProduct c6rec "2024-01-01T00:00:00.000Z" ≠
      normalizeProduct c6rec "2024-01-02T00:00:00.000Z" := by decide

/-- C6 amended: normalizeProduct is deterministic in the pair of record and clock
reading; two calls on the same record agree on every field except price.as_of, which
carries the clock value, and agree completely whenever the record price is zero (so that
no price object is built). -/
theorem c6_amended_pure_modulo_timestamp (r : ProductRecord) (t1 t2 : String) :
    eraseAsOf (normalizeProduct r t1) = eraseAsOf (normalizeProduct r t2) ∧
    (r.price = 0 → normalizeProduct r t1 = normalizeProduct r t2) := by
  constructor
  · unfold normalizeProduct eraseAsOf
    by_cases hp : r.price = 0 <;> simp [hp]
  · intro hp
    unfold normalizeProduct
    simp [hp]

def c6free : ProductRecord :=
  { id := "78", title := "Freebie", handle := "freebie", vendor := "Acme",
    productType := "Camera", description := "plain thing", price := 0,
    currency := "INR", imageUrl := "", imageAlt := "", allTags := "", priceTier := "",
    embeddingText := "" }

/-- Witness for C6 at a priceless record. -/
theorem c6_witness :
    c6free.price = 0 ∧ normalizeProduct c6free "x" = normalizeProduct c6free "y" :=
  ⟨by decide, (c6_amended_pure_modulo_timestamp c6free "x" "y").2 (by decide)⟩

/-! Helper equations for the normalizer. -/

theorem normalizeProduct_attrs (record : ProductRecord) (now : String) :
    (normalizeProduct record now).key_attributes =
      [("video_resolution", (extractVres (recordAllText record)).1),
       ("sensor_size", (extractSensor (recordAllText record)).1),
       ("low_light_performance", (extractLowLight (recordAllText record)).1),
       ("weight_grams", (extractWeight (recordAllText record)).1)] := rfl

theorem normalizeProduct_proof_eq (record : ProductRecord) (now : String) :
    (normalizeProduct record now).proof =
      (if ((extractVres (recordAllText record)).2 ++ (extractSensor (recordAllText record)).2 ++
          (extractLowLight (recordAllText record)).2 ++
          (extractWeight (recordAllText record)).2).length > 0 then
        (extractVres (recordAllText record)).2 ++ (extractSensor (recordAllText record)).2 ++
          (extractLowLight (recordAllText record)).2 ++ (extractWeight (recordAllText record)).2
      else ["title"]) := rfl

theorem extractVres_unknown {t : String}
    (h : (extractVres t).1 = AttrVal.str "unknown") : (extractVres t).2 = [] := by
  unfold extractVres at *
  split at h
  · simp_all
  · split at h <;> simp_all

theorem extractSensor_unknown {t : String}
    (h : (extractSensor t).1 = AttrVal.str "unknown") : (extractSensor t).2 = [] := by
  unfold extractSensor at *
  split at h
  · simp_all
  · split at h <;> simp_all

theorem extractLowLight_unknown {t : String}
    (h : (extractLowLight t).1 = AttrVal.str "unknown") : (extractLowLight t).2 = [] := by
  unfold extractLowLight at *
  split at h <;> simp_all

theorem extractWeight_unknown {t : String}
    (h : (extractWeight t).1 = AttrVal.str "unknown") : (extractWeight t).2 = [] := by
  unfold extractWeight at *
  split at h
  · split at h <;> simp_all
  · rfl

def c10rec : ProductRecord :=
  { id := "d1", title := "DupCam", handle := "dup-cam", vendor := "Acme",
    productType := "Camera", description := "4k night camera", price := 45000,
    currency := "INR", imageUrl := "", imageAlt := "", allTags := "", priceTier := "",
    embeddingText := "" }

/-- C10: the proof array of every normalized profile is non-empty; when every extracted
attribute is the sentinel unknown it is exactly the title fallback; and matched patterns
push one proof entry each without deduplication, as the concrete record whose text
matches both the resolution and the low-light pattern shows. -/
theorem c10_proof_shape :
    (∀ (record : ProductRecord) (now : String),
      (normalizeProduct record now).proof ≠ [] ∧
      ((∀ kv ∈ (normalizeProduct record now).key_attributes,
          kv.2 = AttrVal.str "unknown") →
        (normalizeProduct record now).proof = ["title"])) ∧
    (normalizeProduct c10rec "t0").proof = ["description", "description"] := by
  constructor
  · intro record now
    constructor
    · rw [normalizeProduct_proof_eq]
      split
      · next hlen => exact List.ne_nil_of_length_pos hlen
      · simp
    · intro h
      rw [normalizeProduct_attrs] at h
      simp only [List.forall_mem_cons] at h
      obtain ⟨h1, h2, h3, h4, -⟩ := h
      rw [normalizeProduct_proof_eq, extractVres_unknown h1, extractSensor_unknown h2,
        extractLowLight_unknown h3, extractWeight_unknown h4]
      simp
  · decide

def c10plain : ProductRecord :=
  { id := "d2", title := "Plain", handle := "plain", vendor := "Acme",
    productType := "Camera", description := "a simple item", price := 100,
    currency := "INR", imageUrl := "", imageAlt := "", allTags := "", priceTier := "",
    embeddingText := "" }

/-- Witness for C10 at a record no extraction pattern matches. -/
theorem c10_witness :
    (∀ kv ∈ (normalizeProduct c10plain "z").key_attributes,
      kv.2 = AttrVal.str "unknown") ∧
    (normalizeProduct c10plain "z").proof = ["title"] :=
  ⟨by decide, (c10_proof_shape.1 c10plain "z").2 (by decide)⟩

/-! C3: the comparison request is never populated, and the compare mode is dead. -/

theorem parse_comparison_request (messages : List ChatMessage) :
    (parseUserIntent messages).comparison_request =
      (if strIncludes (lowerStr (String.intercalate " " (messages.map (·.content))))
            "compare" ||
          strIncludes (lowerStr (String.intercalate " " (messages.map (·.content))))
            " vs " ||
          strIncludes (lowerStr (String.intercalate " " (messages.map (·.content))))
            "difference"
       then some [] else none) := rfl

/-- C3: parseUserIntent only ever returns a null or empty comparison_request (the id
extraction is never implemented), so the two-id comparison branch of reason is dead and
reason never returns a response in compare mode. -/
theorem c3_no_compare_mode (pmap : PurposeMap) (now : String)
    (messages : List ChatMessage) (initialized : Bool)
    (searchResults : List ProductRecord) :
    ((parseUserIntent messages).comparison_request = none ∨
      (parseUserIntent messages).comparison_request = some []) ∧
    (reason pmap now messages initialized searchResults).mode ≠ Mode.compare := by
  have hcr : (parseUserIntent messages).comparison_request = none ∨
      (parseUserIntent messages).comparison_request = some [] := by
    rw [parse_comparison_request]
    split
    · exact Or.inr rfl
    · exact Or.inl rfl
  refine ⟨hcr, ?_⟩
  unfold reason reasonFromIntent
  rcases hcr with h | h <;> simp only [h] <;> split <;> try simp
  all_goals split <;> try simp
  all_goals split <;> simp

/-- C7: decideNextQuestion asks for the purpose first (with fixed non-empty options, as
the concrete camera utterance shows at the reason level), then for the budget question of
the purpose when the budget is missing and the configuration provides one, and once a
budget is present it never returns a budget question again. -/
theorem c7_question_order (pmap : PurposeMap) :
    (∀ intent : UserIntent, intent.purpose = none →
      decideNextQuestion pmap intent = some purposeQuestion ∧
        purposeQuestion.options ≠ []) ∧
    (∀ (now : String) (initialized : Bool) (searchResults : List ProductRecord),
      (reason pmap now
          [{ role := .user, content := "I need a camera", products := none, ui := none }]
          initialized searchResults).mode = Mode.clarify ∧
      (reason pmap now
          [{ role := .user, content := "I need a camera", products := none, ui := none }]
          initialized searchResults).clarifying_question = some purposeQuestion) ∧
    (∀ (intent : UserIntent) (p : Purpose) (e : PurposeEntry) (q : String),
      intent.purpose = some p → pmap p = some e → budgetAbsent intent = true →
      e.recommended_clarifying_questions.find?
          (fun q => strIncludes (lowerStr q) "budget") = some q →
      decideNextQuestion pmap intent = some { text := q, options := budgetOptions }) ∧
    (∀ intent : UserIntent, budgetAbsent intent = false →
      decideNextQuestion pmap intent = none ∨
      ∃ q, decideNextQuestion pmap intent = some q ∧
        strIncludes (lowerStr q.text) "budget" = false) := by
  refine ⟨?_, ?_, ?_, ?_⟩
  · intro intent h
    unfold decideNextQuestion
    rw [h]
    exact ⟨rfl, by decide⟩
  · intro now initialized searchResults
    have hq : decideNextQuestion pmap (parseUserIntent
        [{ role := .user, content := "I need a camera", products := none, ui := none }]) =
        some purposeQuestion := by
      have hparse : (parseUserIntent
          [{ role := .user, content := "I need a camera", products := none,
             ui := none }]).purpose = none := by decide
      unfold decideNextQuestion
      rw [hparse]
    unfold reason reasonFromIntent
    rw [hq]
    exact ⟨rfl, rfl⟩
  · intro intent p e q hp he hb hfind
    unfold decideNextQuestion
    rw [hp]
    dsimp only
    rw [he]
    dsimp only
    rw [hb]
    rw [if_pos rfl]
    rw [hfind]
  · intro intent h
    unfold decideNextQuestion
    cases hp : intent.purpose with
    | none =>
      right
      exact ⟨purposeQuestion, rfl, by decide⟩
    | some p =>
      rw [h]
      simp only [Bool.false_eq_true, if_false]
      cases hf : (match pmap p with
          | some e => e.recommended_clarifying_questions
          | none => []).filter (fun q => !(strIncludes (lowerStr q) "budget")) with
      | nil =>
        left
        rfl
      | cons q0 rest =>
        right
        refine ⟨{ text := q0, options := [] }, rfl, ?_⟩
        have hmem : q0 ∈ (match pmap p with
            | some e => e.recommended_clarifying_questions
            | none => []).filter (fun q => !(strIncludes (lowerStr q) "budget")) := by
          rw [hf]
          exact List.mem_cons_self _ _
        have := List.of_mem_filter hmem
        simpa using this

/-- Witness for C7: a configuration with a budget question, a purpose-only intent, and
the resulting budget question with the fixed options. -/
theorem c7_witness :
    decideNextQuestion
        (fun _ => some
          { top_attributes := [], attribute_weights := [],
            recommended_clarifying_questions :=
              ["What is your budget?", "Anything else?"] })
        { purpose := some .travel_vlogging, budget := none, category := none,
          key_attributes := [], comparison_request := none } =
      some { text := "What is your budget?", options := budgetOptions } :=
  (c7_question_order _).2.2.1 _ Purpose.travel_vlogging
    { top_attributes := [], attribute_weights := [],
      recommended_clarifying_questions := ["What is your budget?", "Anything else?"] }
    "What is your budget?" rfl rfl (by decide) (by decide)

/-! C4: claim-side scoring definitions, written from the words of the claim for
comparison with scoreProduct. -/

/-- Purpose-fit contribution as both the claim and the source state it. -/
def claimedPurposeScore (intent : UserIntent) (profile : ProductSemanticProfile) :
    ℚ × List String :=
  match intent.purpose with
  | some p =>
    match profile.useCaseFit p with
    | some Fit.high => (10, ["Excellent fit for " ++ purposeStr p])
    | some Fit.medium => (5, ["Good fit for " ++ purposeStr p])
    | some Fit.low => (1, ["Limited fit for " ++ purposeStr p])
    | _ => (0, [])
  | none => (0, [])

/-- Attribute contribution as the claim states it: weight times ten for each configured
attribute whose profile value is not the sentinel unknown. -/
def claimedAttrScore (weights : List (String × ℚ)) (attrs : List (String × AttrVal)) :
    ℚ × List String :=
  weights.foldl
    (fun acc kv =>
      match attrLookup attrs kv.1 with
      | some v =>
        if v != AttrVal.str "unknown" then
          (acc.1 + kv.2 * 10, acc.2 ++ ["Has " ++ kv.1 ++ ": " ++ v.jsStr])
        else acc
      | none => acc)
    (0, [])

/-- Budget contribution as the claim states it: five points with a reason when the upper
bound is set and the price is within it, two points without a reason when the lower bound
is set and the price reaches it. -/
def claimedBudgetScore (intent : UserIntent) (profile : ProductSemanticProfile) :
    ℚ × List String :=
  match intent.budget, profile.price with
  | some b, some pp =>
    let maxHit : Bool :=
      match b.max with
      | some m => decide (pp.value ≤ (m : Int))
      | none => false
    let minHit : Bool :=
      match b.min with
      | some m => decide ((m : Int) ≤ pp.value)
      | none => false
    ((if maxHit then 5 else 0) + (if minHit then 2 else 0),
     if maxHit then ["Within budget"] else [])
  | _, _ => (0, [])

/-- Weight-table contribution of the claim, keyed by the configured purpose table. -/
def claimedAttrPart (pmap : PurposeMap) (intent : UserIntent)
    (profile : ProductSemanticProfile) : ℚ × List String :=
  match intent.purpose with
  | some p =>
    match pmap p with
    | some e => claimedAttrScore e.attribute_weights profile.key_attributes
    | none => (0, [])
  | none => (0, [])

/-- Score of the original claim C4: the sum of exactly the purpose, attribute and budget
contributions. -/
def claimedScoreC4 (pmap : PurposeMap) (intent : UserIntent)
    (profile : ProductSemanticProfile) : ℚ × List String :=
  let pr1 := claimedPurposeScore intent profile
  let pr2 := claimedAttrPart pmap intent profile
  let pr3 := claimedBudgetScore intent profile
  (pr1.1 + pr2.1 + pr3.1, pr1.2 ++ pr2.2 ++ pr3.2)

/-- Category contribution of the amended claim: three points and a reason when the intent
category is set and case-insensitively contained in the profile category. -/
def claimedCategoryScore (intent : UserIntent) (profile : ProductSemanticProfile) :
    ℚ × List String :=
  match intent.category with
  | some c =>
    if strIncludes (lowerStr profile.category) (lowerStr c) then
      (3, ["Matches category: " ++ profile.category])
    else (0, [])
  | none => (0, [])

/-- Score of the amended claim C4: the original three contributions plus the category
bonus. -/
def claimedScoreAmended (pmap : PurposeMap) (intent : UserIntent)
    (profile : ProductSemanticProfile) : ℚ × List String :=
  let base := claimedScoreC4 pmap intent profile
  let pr4 := claimedCategoryScore intent profile
  (base.1 + pr4.1, base.2 ++ pr4.2)

def pmap0 : PurposeMap := fun _ => none

def c4intent : UserIntent :=
  { purpose := none, budget := none, category := some "Camera",
    key_attributes := [], comparison_request := none }

def c4profile : ProductSemanticProfile :=
  { product_id := "1", title := "T", category := "Camera", price := none,
    availability := .unknown, key_attributes := [], fit_travel_vlogging := none,
    fit_beginner_photography := none, fit_low_light_events := none, proof := ["title"] }

/-- C4 counterexample: on a category-matching intent the source adds a category bonus of
three with a Matches category reason, so the score is not the sum the claim lists. -/
theorem c4_counterexample :
    scoreProduct pmap0 c4intent c4profile ≠ claimedScoreC4 pmap0 c4intent c4profile ∧
    (scoreProduct pmap0 c4intent c4profile).1 = 3 ∧
    (claimedScoreC4 pmap0 c4intent c4profile).1 = 0 := by
  have hinc : strIncludes (lowerStr "Camera") (lowerStr "Camera") = true := by decide
  have h2 : scoreProduct pmap0 c4intent c4profile = (3, ["Matches category: Camera"]) := by
    unfold scoreProduct scorePurposePart scoreAttrPart scoreBudgetPart scoreCategoryPart
      pmap0 c4intent c4profile
    norm_num [hinc]
    simp
  have h3 : claimedScoreC4 pmap0 c4intent c4profile = (0, []) := by
    unfold claimedScoreC4 claimedPurposeScore claimedAttrPart claimedBudgetScore pmap0
      c4intent c4profile
    norm_num
  refine ⟨?_, by rw [h2], by rw [h3]⟩
  rw [h2, h3]
  intro hEq
  exact absurd (congrArg Prod.fst hEq) (by norm_num)

theorem lookup_pair_mem {l : List (String × AttrVal)} {k : String} {v : AttrVal}
    (h : l.lookup k = some v) : (k, v) ∈ l := by
  induction l with
  | nil => simp [List.lookup] at h
  | cons hd tl ih =>
    obtain ⟨k1, v1⟩ := hd
    rw [List.lookup] at h
    rcases Bool.eq_false_or_eq_true (k == k1) with hk | hk
    · rw [hk] at h
      dsimp only at h
      have hkeq : k = k1 := by simpa using hk
      have hveq : v1 = v := Option.some.inj h
      rw [hkeq, ← hveq]
      exact List.mem_cons_self _ _
    · rw [hk] at h
      dsimp only at h
      exact List.mem_cons_of_mem _ (ih h)

theorem attrScore_eq_claimed (weights : List (String × ℚ))
    (attrs : List (String × AttrVal)) (h : ∀ kv ∈ attrs, kv.2.jsTruthy = true) :
    attrScore weights attrs = claimedAttrScore weights attrs := by
  unfold attrScore claimedAttrScore
  apply List.foldl_ext
  intro acc kv _
  cases hl : attrLookup attrs kv.1 with
  | none => rfl
  | some v =>
    dsimp only
    have hv : v.jsTruthy = true := h (kv.1, v) (lookup_pair_mem hl)
    rw [hv, Bool.true_and]

theorem scorePurposePart_eq (intent : UserIntent) (profile : ProductSemanticProfile) :
    scorePurposePart intent profile = claimedPurposeScore intent profile := rfl

theorem scoreAttrPart_eq (pmap : PurposeMap) (intent : UserIntent)
    (profile : ProductSemanticProfile)
    (hattr : ∀ kv ∈ profile.key_attributes, kv.2.jsTruthy = true) :
    scoreAttrPart pmap intent profile = claimedAttrPart pmap intent profile := by
  unfold scoreAttrPart claimedAttrPart
  cases intent.purpose with
  | none => rfl
  | some p =>
    dsimp only
    cases pmap p with
    | none => rfl
    | some e =>
      dsimp only
      exact attrScore_eq_claimed _ _ hattr

theorem scoreBudgetPart_eq (intent : UserIntent) (profile : ProductSemanticProfile)
    (hmin : ∀ b ∈ intent.budget, ∀ m ∈ b.min, 0 < m)
    (hmax : ∀ b ∈ intent.budget, ∀ m ∈ b.max, 0 < m) :
    scoreBudgetPart intent profile = claimedBudgetScore intent profile := by
  unfold scoreBudgetPart claimedBudgetScore
  cases hb : intent.budget with
  | none => rfl
  | some b =>
    cases profile.price with
    | none => rfl
    | some pp =>
      dsimp only
      have hbm : b ∈ intent.budget := by rw [hb]; rfl
      cases hm : b.max with
      | none =>
        cases hmn : b.min with
        | none => rfl
        | some m2 =>
          dsimp only
          have h2 : (m2 != 0) = true := by
            have := hmin b hbm m2 (by rw [hmn]; rfl)
            simpa using this.ne'
          rw [h2, Bool.true_and]
      | some m =>
        dsimp only
        have h1 : (m != 0) = true := by
          have := hmax b hbm m (by rw [hm]; rfl)
          simpa using this.ne'
        cases hmn : b.min with
        | none =>
          dsimp only
          rw [h1, Bool.true_and]
        | some m2 =>
          dsimp only
          have h2 : (m2 != 0) = true := by
            have := hmin b hbm m2 (by rw [hmn]; rfl)
            simpa using this.ne'
          rw [h1, h2, Bool.true_and, Bool.true_and]

theorem scoreCategoryPart_eq (intent : UserIntent) (profile : ProductSemanticProfile)
    (hcat : ∀ c ∈ intent.category, c ≠ "") :
    scoreCategoryPart intent profile = claimedCategoryScore intent profile := by
  unfold scoreCategoryPart claimedCategoryScore
  cases hc : intent.category with
  | none => rfl
  | some c =>
    dsimp only
    have h1 : (c != "") = true := by
      have := hcat c (by rw [hc]; rfl)
      simpa using this
    rw [h1, Bool.true_and]

/-- C4 amended: on intents whose budget bounds are positive when set and whose category
is a non-empty string when set, and on profiles whose attribute values are truthy,
scoreProduct is exactly the sum the claim lists plus the category bonus of three with its
Matches category reason. -/
theorem c4_amended_score_decomposition (pmap : PurposeMap) (intent : UserIntent)
    (profile : ProductSemanticProfile)
    (hmin : ∀ b ∈ intent.budget, ∀ m ∈ b.min, 0 < m)
    (hmax : ∀ b ∈ intent.budget, ∀ m ∈ b.max, 0 < m)
    (hattr : ∀ kv ∈ profile.key_attributes, kv.2.jsTruthy = true)
    (hcat : ∀ c ∈ intent.category, c ≠ "") :
    scoreProduct pmap intent profile = claimedScoreAmended pmap intent profile := by
  unfold scoreProduct claimedScoreAmended claimedScoreC4
  dsimp only
  rw [scorePurposePart_eq, scoreAttrPart_eq pmap intent profile hattr,
    scoreBudgetPart_eq intent profile hmin hmax, scoreCategoryPart_eq intent profile hcat]

/-- Witness for C4 at the concrete category-matching inputs. -/
theorem c4_witness :
    scoreProduct pmap0 c4intent c4profile = claimedScoreAmended pmap0 c4intent c4profile :=
  c4_amended_score_decomposition pmap0 c4intent c4profile (by decide) (by decide)
    (by decide) (by decide)

/-! C5: per-item and overall confidence tiers. -/

/-- Per-item tier written from the claim words: fifteen for high, eight for medium. -/
def specItemTier (s : ℚ) : Confidence :=
  if s ≥ 15 then .high else if s ≥ 8 then .medium else .low

/-- Overall tier of the amended claim: the mean is compared against twelve and six, not
against the per-item thresholds. -/
def overallTier (s : ℚ) : Confidence :=
  if s ≥ 12 then .high else if s ≥ 6 then .medium else .low

theorem recommend_ne_nil (pmap : PurposeMap) (intent : UserIntent)
    (profiles : List ProductSemanticProfile) (h : profiles ≠ []) :
    (recommend pmap intent profiles).1 ≠ [] := by
  unfold recommend
  dsimp only
  intro hc
  rw [List.map_eq_nil_iff, List.take_eq_nil_iff] at hc
  rcases hc with hc | hc
  · exact absurd hc (by norm_num)
  · have hlen : (scoredSorted pmap intent profiles).length = profiles.length := by
      unfold scoredSorted
      rw [List.length_mergeSort, List.length_map]
    rw [hc] at hlen
    exact h (List.eq_nil_of_length_eq_zero hlen.symm)

/-- C5 amended: every selected recommendation carries the per-item tier of its score
against the claimed thresholds of fifteen and eight, and the overall confidence is the
tier of the mean score of the selected set against the thresholds twelve and six. -/
theorem c5_amended_confidence_tiers (pmap : PurposeMap) (intent : UserIntent)
    (profiles : List ProductSemanticProfile) (h : profiles ≠ []) :
    ((recommend pmap intent profiles).1).map Recommendation.confidence =
      ((scoredSorted pmap intent profiles).take 3).map (fun s => specItemTier s.score) ∧
    (recommend pmap intent profiles).2 =
      overallTier (meanScore ((scoredSorted pmap intent profiles).take 3)) ∧
    (recommend pmap intent profiles).1 ≠ [] := by
  refine ⟨?_, rfl, recommend_ne_nil pmap intent profiles h⟩
  unfold recommend
  dsimp only
  rw [List.map_map]
  congr 1

/-- Witness for C5 at a one-profile list. -/
theorem c5_witness :
    ((recommend pmap0 c4intent [c4profile]).1).map Recommendation.confidence =
      ((scoredSorted pmap0 c4intent [c4profile]).take 3).map
        (fun s => specItemTier s.score) ∧
    (recommend pmap0 c4intent [c4profile]).1 ≠ [] :=
  ⟨(c5_amended_confidence_tiers pmap0 c4intent [c4profile] (by decide)).1,
   (c5_amended_confidence_tiers pmap0 c4intent [c4profile] (by decide)).2.2⟩

def c5intent : UserIntent :=
  { purpose := some .travel_vlogging,
    budget := some { min := some 1, max := none, currency := "INR" },
    category := none, key_attributes := [], comparison_request := none }

def c5prof : ProductSemanticProfile :=
  { product_id := "9", title := "Vlog Cam", category := "Camera",
    price := some { value := 100, currency := "INR", as_of := "t" },
    availability := .unknown, key_attributes := [], fit_travel_vlogging := some .high,
    fit_beginner_photography := none, fit_low_light_events := none, proof := ["title"] }

/-- C5 counterexample: a selected set whose single score is twelve gets overall
confidence high from the source, while the claim derives medium from the same per-item
thresholds at a mean of twelve. -/
theorem c5_counterexample :
    (recommend pmap0 c5intent [c5prof]).2 = Confidence.high ∧
    meanScore ((scoredSorted pmap0 c5intent [c5prof]).take 3) = 12 ∧
    specItemTier 12 = Confidence.medium := by
  have hscore : scoreProduct pmap0 c5intent c5prof =
      (12, ["Excellent fit for travel_vlogging"]) := by
    unfold scoreProduct scorePurposePart scoreAttrPart scoreBudgetPart scoreCategoryPart
      pmap0 c5intent c5prof
    norm_num [ProductSemanticProfile.useCaseFit, purposeStr]
    rfl
  have hs : scoredSorted pmap0 c5intent [c5prof] =
      [{ profile := c5prof, score := 12,
         reasons := ["Excellent fit for travel_vlogging"] }] := by
    unfold scoredSorted
    simp [hscore, List.mergeSort]
  refine ⟨?_, ?_, ?_⟩
  · unfold recommend
    rw [hs]
    dsimp only
    norm_num [meanScore]
  · rw [hs]
    norm_num [meanScore]
  · unfold specItemTier
    norm_num

/-! C8: provenance of comparison difference entries. -/

/-- Amended grounding property of one difference entry: the fixed placeholder when
nothing differed, a price delta from two present prices, or an attribute entry from a
key of product A whose value is not the sentinel and whose value on product B is either
absent (rendered as the text undefined) or present, not the sentinel, and different. -/
def GroundedDiff (pa pb : ProductSemanticProfile) (d : String) : Prop :=
  (d = "No significant differences found" ∧
    (priceDiffs pa pb).1 = [] ∧ attrDiffs pa pb = []) ∨
  (∃ a b, pa.price = some a ∧ pb.price = some b ∧ a.value ≠ b.value ∧
    (d = "Product A is ₹" ++ toString (b.value - a.value) ++ " cheaper" ∨
     d = "Product B is ₹" ++ toString (a.value - b.value) ++ " cheaper")) ∨
  (∃ k vA, (k, vA) ∈ pa.key_attributes ∧ vA ≠ AttrVal.str "unknown" ∧
    (∀ vB, attrLookup pb.key_attributes k = some vB →
      vB ≠ AttrVal.str "unknown" ∧ vB ≠ vA) ∧
    d = k ++ ": A has " ++ vA.jsStr ++ ", B has " ++
      jsShowAttr (attrLookup pb.key_attributes k))

/-- C8 amended: every entry of the compare differences list is grounded in the sense of
GroundedDiff; in particular an attribute present on side A but absent on side B does
produce an entry (printed against the text undefined), and an empty difference list is
replaced by the fixed placeholder. -/
theorem c8_amended_differences_grounded (pa pb : ProductSemanticProfile)
    (intent : UserIntent) :
    ∀ d ∈ (compareProducts pa pb intent).differences, GroundedDiff pa pb d := by
  intro d hd
  unfold compareProducts at hd
  dsimp only at hd
  split at hd
  · rw [List.mem_append] at hd
    rcases hd with hd | hd
    · -- price entry
      right
      left
      unfold priceDiffs at hd
      cases hpa : pa.price with
      | none => rw [hpa] at hd; simp at hd
      | some a =>
        cases hpb : pb.price with
        | none => rw [hpa, hpb] at hd; simp at hd
        | some b =>
          rw [hpa, hpb] at hd
          dsimp only at hd
          split at hd
          · next hlt =>
            simp only [List.mem_singleton] at hd
            exact ⟨a, b, rfl, rfl, by omega, Or.inl hd⟩
          · split at hd
            · next hgt =>
              simp only [List.mem_singleton] at hd
              exact ⟨a, b, rfl, rfl, by omega, Or.inr hd⟩
            · simp at hd
    · -- attribute entry
      right
      right
      unfold attrDiffs at hd
      rw [List.mem_filterMap] at hd
      obtain ⟨kv, hkv, hentry⟩ := hd
      unfold attrDiffEntry at hentry
      dsimp only at hentry
      split at hentry
      · next hdif =>
        refine ⟨kv.1, kv.2, hkv, ?_, ?_, (Option.some.inj hentry).symm⟩
        · have h1 := (Bool.and_eq_true _ _).mp hdif |>.1
          simpa using h1
        · intro vB hvB
          have h2 := (Bool.and_eq_true _ _).mp hdif |>.2
          rw [hvB] at h2
          dsimp only at h2
          have h3 := (Bool.and_eq_true _ _).mp h2
          constructor
          · simpa using h3.1
          · have := h3.2
            simp only [bne_iff_ne, ne_eq] at this
            exact this
      · exact absurd hentry (by simp)
  · left
    next hlen =>
    simp only [List.mem_singleton] at hd
    refine ⟨hd, ?_, ?_⟩
    · have : ((priceDiffs pa pb).1 ++ attrDiffs pa pb).length = 0 := by omega
      rw [List.length_append] at this
      exact List.eq_nil_of_length_eq_zero (by omega)
    · have : ((priceDiffs pa pb).1 ++ attrDiffs pa pb).length = 0 := by omega
      rw [List.length_append] at this
      exact List.eq_nil_of_length_eq_zero (by omega)

def intentNone : UserIntent :=
  { purpose := none, budget := none, category := none, key_attributes := [],
    comparison_request := none }

def c8pa : ProductSemanticProfile :=
  { product_id := "a", title := "A", category := "Camera", price := none,
    availability := .unknown, key_attributes := [("foo", .str "bar")],
    fit_travel_vlogging := none, fit_beginner_photography := none,
    fit_low_light_events := none, proof := ["title"] }

def c8pb : ProductSemanticProfile :=
  { product_id := "b", title := "B", category := "Camera", price := none,
    availability := .unknown, key_attributes := [],
    fit_travel_vlogging := none, fit_beginner_photography := none,
    fit_low_light_events := none, proof := ["title"] }

/-- C8 counterexample: an attribute present on side A and absent on side B produces a
difference entry rendered against the text undefined, contradicting the claim that an
attribute absent on either side contributes no entry. -/
theorem c8_counterexample :
    (compareProducts c8pa c8pb intentNone).differences =
      ["foo: A has bar, B has undefined"] ∧
    attrLookup c8pb.key_attributes "foo" = none := by decide

/-- Witness for C8 at the concrete undefined-side entry. -/
theorem c8_witness : GroundedDiff c8pa c8pb "foo: A has bar, B has undefined" :=
  c8_amended_differences_grounded c8pa c8pb intentNone _ (by decide)

/-- General behavior of the missing-comparison path of reason: the error is recorded and
the turn falls through to recommendations. -/
theorem reasonMissingComparison (pmap : PurposeMap) (now : String) (intent : UserIntent)
    (initialized : Bool) (searchResults : List ProductRecord) (a b : String)
    (rest : List String)
    (hcr : intent.comparison_request = some (a :: b :: rest))
    (hq : decideNextQuestion pmap intent = none)
    (hp : fetchCatalogSubset initialized searchResults intent ≠ [])
    (hmiss :
      ((fetchCatalogSubset initialized searchResults intent).map
          (fun r => normalizeProduct r now)).find? (fun p => p.product_id == a) = none ∨
      ((fetchCatalogSubset initialized searchResults intent).map
          (fun r => normalizeProduct r now)).find? (fun p => p.product_id == b) = none) :
    (reasonFromIntent pmap now intent initialized searchResults).mode = Mode.recommend ∧
    (reasonFromIntent pmap now intent initialized searchResults).comparison = none ∧
    (reasonFromIntent pmap now intent initialized searchResults).errors =
      ["Could not find products for comparison"] := by
  have hie : (fetchCatalogSubset initialized searchResults intent).isEmpty = false := by
    rcases hl : fetchCatalogSubset initialized searchResults intent with _ | ⟨x, xs⟩
    · exact absurd hl hp
    · rfl
  have hprof : (fetchCatalogSubset initialized searchResults intent).map
      (fun r => normalizeProduct r now) ≠ [] := by
    rw [ne_eq, List.map_eq_nil_iff]
    exact hp
  have hrec : (recommend pmap intent
      ((fetchCatalogSubset initialized searchResults intent).map
        (fun r => normalizeProduct r now))).1 ≠ [] :=
    recommend_ne_nil _ _ _ hprof
  have hrecE : (recommend pmap intent
      ((fetchCatalogSubset initialized searchResults intent).map
        (fun r => normalizeProduct r now))).1.isEmpty = false := by
    rcases hl : (recommend pmap intent
        ((fetchCatalogSubset initialized searchResults intent).map
          (fun r => normalizeProduct r now))).1 with _ | ⟨x, xs⟩
    · exact absurd hl hrec
    · rfl
  unfold reasonFromIntent
  rw [hq]
  try dsimp only
  rw [hie]
  try dsimp only
  rw [hcr]
  try dsimp only
  rcases hmiss with hm | hm
  · rw [hm]
    try dsimp only
    rw [hrecE]
    try dsimp only
    exact ⟨rfl, rfl, rfl⟩
  · rcases hfa : ((fetchCatalogSubset initialized searchResults intent).map
        (fun r => normalizeProduct r now)).find? (fun p => p.product_id == a) with _ | pa
    · rw [hfa]
      try dsimp only
      rw [hrecE]
      try dsimp only
      exact ⟨rfl, rfl, rfl⟩
    · rw [hfa, hm]
      try dsimp only
      rw [hrecE]
      try dsimp only
      exact ⟨rfl, rfl, rfl⟩

/-- C2 amended: when a two-id comparison is requested and at least one requested id is
absent from the fetched candidates, reason appends the error text Could not find products
for comparison and falls through to ranked recommendations: the response has mode
recommend, a null comparison (never one built from substitutes), and that error as its
errors list. -/
theorem c2_amended_missing_comparison (pmap : PurposeMap) (now : String)
    (intent : UserIntent) (initialized : Bool) (searchResults : List ProductRecord)
    (a b : String) (rest : List String)
    (hcr : intent.comparison_request = some (a :: b :: rest))
    (hq : decideNextQuestion pmap intent = none)
    (hp : fetchCatalogSubset initialized searchResults intent ≠ [])
    (hmiss :
      ((fetchCatalogSubset initialized searchResults intent).map
          (fun r => normalizeProduct r now)).find? (fun p => p.product_id == a) = none ∨
      ((fetchCatalogSubset initialized searchResults intent).map
          (fun r => normalizeProduct r now)).find? (fun p => p.product_id == b) = none) :
    (reasonFromIntent pmap now intent initialized searchResults).mode = Mode.recommend ∧
    (reasonFromIntent pmap now intent initialized searchResults).mode ≠ Mode.fail ∧
    (reasonFromIntent pmap now intent initialized searchResults).comparison = none ∧
    (reasonFromIntent pmap now intent initialized searchResults).errors =
      ["Could not find products for comparison"] := by
  obtain ⟨h1, h2, h3⟩ :=
    reasonMissingComparison pmap now intent initialized searchResults a b rest hcr hq
      hp hmiss
  exact ⟨h1, by rw [h1]; intro hc; exact Mode.noConfusion hc, h2, h3⟩

def c2intent : UserIntent :=
  { purpose := some .travel_vlogging,
    budget := some { min := none, max := some 50000, currency := "INR" },
    category := none, key_attributes := [],
    comparison_request := some ["1", "2"] }

def c2rec : ProductRecord :=
  { id := "1", title := "Solo Cam", handle := "solo-cam", vendor := "Acme",
    productType := "Camera", description := "4k camera", price := 45000,
    currency := "INR", imageUrl := "", imageAlt := "", allTags := "", priceTier := "",
    embeddingText := "" }

/-- C2 counterexample: with a comparison of ids 1 and 2 requested and only id 1 among
the fetched candidates, reason returns mode recommend (not fail) with the comparison
error merely appended to the errors list. -/
theorem c2_counterexample :
    (reasonFromIntent pmap0 "t" c2intent true [c2rec]).mode = Mode.recommend ∧
    (reasonFromIntent pmap0 "t" c2intent true [c2rec]).mode ≠ Mode.fail ∧
    (reasonFromIntent pmap0 "t" c2intent true [c2rec]).comparison = none ∧
    (reasonFromIntent pmap0 "t" c2intent true [c2rec]).errors =
      ["Could not find products for comparison"] := by
  obtain ⟨h1, h2, h3⟩ :=
    reasonMissingComparison pmap0 "t" c2intent true [c2rec] "1" "2" [] (by decide)
      (by decide) (by decide) (Or.inr (by decide))
  exact ⟨h1, by rw [h1]; intro hc; exact Mode.noConfusion hc, h2, h3⟩

/-- Witness for C2 at the concrete one-sided comparison request. -/
theorem c2_witness :
    (reasonFromIntent pmap0 "t" c2intent true [c2rec]).mode = Mode.recommend ∧
    (reasonFromIntent pmap0 "t" c2intent true [c2rec]).comparison = none :=
  ⟨(c2_amended_missing_comparison pmap0 "t" c2intent true [c2rec] "1" "2" [] (by decide)
      (by decide) (by decide) (Or.inr (by decide))).1,
   (c2_amended_missing_comparison pmap0 "t" c2intent true [c2rec] "1" "2" [] (by decide)
      (by decide) (by decide) (Or.inr (by decide))).2.2.1⟩

/-- C1 amended: the downgrade to a forced product search happens exactly on the condition
the source tests: two or more prior clarifying turns together with confidence at least
0.6, or confidence at least 0.8 on its own.  On that condition the turn locks
constraints, forces the product fetch and shows the recommendation UI. -/
theorem c1_amended_cap_downgrade (parsed : ParsedGemini)
    (currentState : ConversationState) (userMessage : String)
    (history : List ChatMessage) (fetched : List RetailProduct)
    (h : (countClarifyingQuestions history ≥ 2 ∧
        calculateConfidence (retailUpdatedState parsed currentState userMessage) ≥
          6 / 10) ∨
      calculateConfidence (retailUpdatedState parsed currentState userMessage) ≥
        8 / 10) :
    (processRetailConversation parsed currentState userMessage history
        fetched).ui.type = "recommendation" ∧
    (processRetailConversation parsed currentState userMessage history
        fetched).state.constraints_locked = true ∧
    (processRetailConversation parsed currentState userMessage history
        fetched).shouldFetchProducts = true := by
  have hd : retailDecision (countClarifyingQuestions history)
      (calculateConfidence (retailUpdatedState parsed currentState userMessage)) =
      true := by
    unfold retailDecision
    rcases h with ⟨h1, h2⟩ | h2
    · simp [h1, h2]
    · simp [h2]
  unfold processRetailConversation retailABC retailC
  dsimp only
  rw [hd]
  simp

def c1state0 : ConversationState :=
  { intent := none, primary_use := none, experience_level := none,
    budget_range := none, constraints_locked := false }

def c1parsedQ : ParsedGemini :=
  { updateIntent := none, updatePrimaryUse := none, updateExperienceLevel := none,
    updateBudgetRange := none, acknowledgment := "Okay.",
    question := some "What is your budget?", recommendation := none,
    uiType := "question", chips := none, shouldFetchProducts := false,
    searchQuery := none, category := none, comparison := none, checkout := none }

def c1hist : List ChatMessage :=
  [{ role := .assistant, content := "What will you use it for?", products := none,
     ui := some { retailUI := some { type := "question" } } },
   { role := .assistant, content := "Any preferred brand?", products := none,
     ui := some { retailUI := some { type := "question" } } }]

/-- C1 counterexample: with two clarifying questions already asked but confidence zero
(below the 0.6 threshold), the agent produces a third clarifying turn instead of
downgrading to a forced product search, so the cap alone does not force the downgrade. -/
theorem c1_counterexample :
    countClarifyingQuestions c1hist = 2 ∧
    (processRetailConversation c1parsedQ c1state0 "hmm" c1hist []).ui.type =
      "question" ∧
    (processRetailConversation c1parsedQ c1state0 "hmm" c1hist
        []).state.constraints_locked = false := by
  have hst : retailUpdatedState c1parsedQ c1state0 "hmm" = c1state0 := by decide
  have hconf : calculateConfidence c1state0 = 0 := by
    unfold calculateConfidence c1state0
    norm_num [jsTruthyS]
  have hcc : countClarifyingQuestions c1hist = 2 := by decide
  have d1 : decide ((0:ℚ) ≥ 6 / 10) = false := by
    rw [decide_eq_false_iff_not]
    norm_num
  have d2 : decide ((0:ℚ) ≥ 8 / 10) = false := by
    rw [decide_eq_false_iff_not]
    norm_num
  have hd : retailDecision 2 0 = false := by
    unfold retailDecision
    rw [d1, d2]
    simp
  refine ⟨hcc, ?_, ?_⟩ <;>
  · unfold processRetailConversation retailABC retailC
    dsimp only
    rw [hst, hconf, hcc, hd]
    simp [c1state0, c1parsedQ, jsTruthyS]

def c1wstate : ConversationState :=
  { intent := some "travel vlogging", primary_use := none, experience_level := none,
    budget_range := some "under 30000", constraints_locked := false }

/-- Witness for C1 at a state whose confidence 0.7 passes the 0.6 threshold after two
clarifying turns. -/
theorem c1_witness :
    (processRetailConversation c1parsedQ c1wstate "ok" c1hist []).ui.type =
      "recommendation" ∧
    (processRetailConversation c1parsedQ c1wstate "ok" c1hist
        []).state.constraints_locked = true := by
  have hst : retailUpdatedState c1parsedQ c1wstate "ok" = c1wstate := by decide
  have h := c1_amended_cap_downgrade c1parsedQ c1wstate "ok" c1hist []
    (Or.inl ⟨by decide, by
      rw [hst]
      unfold calculateConfidence c1wstate
      norm_num [jsTruthyS]
      rw [if_neg (by decide), if_neg (by decide)]
      norm_num⟩)
  exact ⟨h.1, h.2.1⟩
